import Mathlib

/-!
Verification of the MEME trading-bot decision-and-risk core.

The development is a shallow embedding of the TypeScript source:

* `risk-governor.ts`   : risk state, pre-trade gate, kill switch, auto-halt
* `features/engine.ts` : event buffers, pruning, execution-risk features
* `strategy/engine.ts` : exit evaluator (checkExitConditions)
* `paper/engine.ts`    : paper trading engine (executeBuy / executeSell)

Numbers are modelled as rationals (the source uses JS doubles; every claim
under consideration is about exact arithmetic relations of the formulas, so
the rational model is the faithful symbolic reading of the code).  Trade
counters are naturals.  Timestamps (millisecond epoch values) are rationals.

Randomness (Math.random draws) is passed in explicitly as rational draws in
[0,1).  Generated UUIDs and human-readable message strings that merely
interpolate formatted numbers (toFixed) are presentation-only and are not
modelled; every field a claim inspects is modelled.
-/

namespace MEME

/-- JS Math.round semantics: round half toward positive infinity,
`Math.round x = floor (x + 0.5)`. -/
def jsRound (x : ℚ) : ℤ := ⌊x + 1/2⌋

-- ============================================================================
-- Shared data model (types.ts)
-- ============================================================================

/-- Severity levels of an Incident (types.ts). -/
inductive Severity
  | INFO
  | WARNING
  | CRITICAL
deriving DecidableEq, Repr

/-- Incident categories used by the risk governor. -/
inductive IncidentCategory
  | KILL_SWITCH
  | DAILY_DRAWDOWN
  | CONSECUTIVE_LOSSES
deriving DecidableEq, Repr

/-- Incident record (types.ts); the generated uuid and the human-readable
message string (which only interpolates formatted numbers) are not modelled. -/
structure Incident where
  timestamp : ℚ
  severity : Severity
  category : IncidentCategory
  autoAction : String
  resolved : Bool
deriving DecidableEq, Repr

/-- TakeProfitLevel (types.ts): position-side level with a triggered flag. -/
structure TakeProfitLevel where
  pctGain : ℚ
  sellPct : ℚ
  triggered : Bool
deriving DecidableEq, Repr

/-- Config-side take-profit level (BotConfig.takeProfitLevels has no
triggered flag). -/
structure ConfigTakeProfitLevel where
  pctGain : ℚ
  sellPct : ℚ
deriving DecidableEq, Repr

/-- BotConfig (types.ts / defaults.ts), restricted to the fields the core
decision/risk/execution logic under verification reads. -/
structure BotConfig where
  regimeScoreThreshold : ℚ
  riskPerTradePct : ℚ
  maxExposurePct : ℚ
  dailyMaxDrawdownPct : ℚ
  maxTradesPerHour : ℕ
  maxTradesPerDay : ℕ
  maxConsecutiveLosses : ℕ
  stopLossPct : ℚ
  takeProfitLevels : List ConfigTakeProfitLevel
  trailingStopPct : ℚ
  timeStopMinutes : ℚ
  paperStartingEquity : ℚ
  paperSlippageMultiplier : ℚ
  paperFailureRate : ℚ
  paperLatencyMs : ℚ
deriving DecidableEq, Repr

/-- DEFAULT_CONFIG from defaults.ts (the fields modelled here). -/
def DEFAULT_CONFIG : BotConfig :=
  { regimeScoreThreshold := 40
    riskPerTradePct := 20/100
    maxExposurePct := 1
    dailyMaxDrawdownPct := 2
    maxTradesPerHour := 3
    maxTradesPerDay := 10
    maxConsecutiveLosses := 3
    stopLossPct := 25
    takeProfitLevels := [⟨50, 30⟩, ⟨100, 30⟩]
    trailingStopPct := 15
    timeStopMinutes := 60
    paperStartingEquity := 10
    paperSlippageMultiplier := 15/10
    paperFailureRate := 5/100
    paperLatencyMs := 500 }

-- ============================================================================
-- Risk governor state (risk-governor.ts)
-- ============================================================================

/-- RiskState (types.ts), the mutable risk singleton of risk-governor.ts.
The embedded RiskLimits record is not read by any function under
verification (checkPreTradeRisk and runAutoHaltChecks read the config
directly), so it is not modelled. -/
structure RiskState where
  equitySol : ℚ
  startOfDayEquity : ℚ
  todayPnlSol : ℚ
  todayPnlPct : ℚ
  todayDrawdownPct : ℚ
  currentExposureSol : ℚ
  currentExposurePct : ℚ
  openPositionCount : ℕ
  todayTradeCount : ℕ
  hourTradeCount : ℕ
  consecutiveLosses : ℕ
  isHalted : Bool
  haltReason : Option String
  haltedAt : Option ℚ
  resumeAt : Option ℚ
deriving DecidableEq, Repr

/-- The module-initial riskState value of risk-governor.ts (equity 10,
all counters zero, not halted). -/
def initialRiskState : RiskState :=
  { equitySol := 10
    startOfDayEquity := 10
    todayPnlSol := 0
    todayPnlPct := 0
    todayDrawdownPct := 0
    currentExposureSol := 0
    currentExposurePct := 0
    openPositionCount := 0
    todayTradeCount := 0
    hourTradeCount := 0
    consecutiveLosses := 0
    isHalted := false
    haltReason := none
    haltedAt := none
    resumeAt := none }

/-- updateEquity (risk-governor.ts lines 47 to 54): records new equity,
recomputes today P&L, and ratchets the drawdown down when the new P&L
percentage is more negative. -/
def updateEquity (sol : ℚ) (st : RiskState) : RiskState :=
  let todayPnlSol := sol - st.startOfDayEquity
  let todayPnlPct := todayPnlSol / st.startOfDayEquity * 100
  { st with
    equitySol := sol
    todayPnlSol := todayPnlSol
    todayPnlPct := todayPnlPct
    todayDrawdownPct :=
      if todayPnlPct < st.todayDrawdownPct then todayPnlPct
      else st.todayDrawdownPct }

/-- One entry of RiskCheckResult.details.  The value and limit display
strings of the source (formatted numbers) are presentation-only and not
modelled; the check name and pass flag are. -/
structure RiskCheckDetail where
  check : String
  passed : Bool
deriving DecidableEq, Repr

/-- RiskCheckResult (risk-governor.ts). -/
structure RiskCheckResult where
  allowed : Bool
  reason : String
  details : List RiskCheckDetail
deriving DecidableEq, Repr

/-- The ordered list of the seven pre-trade checks of checkPreTradeRisk
(risk-governor.ts lines 79 to 94), evaluated on an already refreshed
risk state (the source first calls refreshRiskCounters, which re-reads
the counters from the store; the embedding takes the refreshed state as
input). -/
def preTradeChecks (tradeSizeSol : ℚ) (config : BotConfig) (st : RiskState) :
    List RiskCheckDetail :=
  [ ⟨"Not halted", !st.isHalted⟩,
    ⟨"Daily drawdown", decide (|st.todayDrawdownPct| < config.dailyMaxDrawdownPct)⟩,
    ⟨"Exposure limit",
      decide ((st.currentExposureSol + tradeSizeSol) / st.equitySol * 100 ≤ config.maxExposurePct)⟩,
    ⟨"Trade size", decide (tradeSizeSol / st.equitySol * 100 ≤ config.riskPerTradePct)⟩,
    ⟨"Hourly trades", decide (st.hourTradeCount < config.maxTradesPerHour)⟩,
    ⟨"Daily trades", decide (st.todayTradeCount < config.maxTradesPerDay)⟩,
    ⟨"Consec. losses", decide (st.consecutiveLosses < config.maxConsecutiveLosses)⟩ ]

/-- checkPreTradeRisk (risk-governor.ts lines 75 to 107): allowed iff every
check passed; reason is the joined names of the failing checks. -/
def checkPreTradeRisk (tradeSizeSol : ℚ) (config : BotConfig) (st : RiskState) :
    RiskCheckResult :=
  let details := preTradeChecks tradeSizeSol config st
  let allPassed := details.all (fun d => d.passed)
  let failed := details.filter (fun d => !d.passed)
  { allowed := allPassed
    reason :=
      if allPassed then "All risk checks passed"
      else "Blocked: " ++ String.intercalate ", " (failed.map (fun d => d.check))
    details := details }

/-- Governor state: the risk singleton together with the store of incidents
written through saveIncident (database.ts collaborator, modelled as an
append-only list). -/
structure GovState where
  risk : RiskState
  incidentLog : List Incident
deriving DecidableEq, Repr

/-- activateKillSwitch (risk-governor.ts lines 109 to 118): halts, stamps
reason and time, and saves a CRITICAL KILL_SWITCH incident. -/
def activateKillSwitch (reason : String) (now : ℚ) (s : GovState) : GovState :=
  { risk :=
      { s.risk with
        isHalted := true
        haltReason := some reason
        haltedAt := some now }
    incidentLog :=
      s.incidentLog ++
        [{ timestamp := now
           severity := Severity.CRITICAL
           category := IncidentCategory.KILL_SWITCH
           autoAction := "All new orders blocked"
           resolved := false }] }

/-- deactivateKillSwitch (risk-governor.ts lines 120 to 124): clears the
halted flag, the halt reason and the halted-at stamp.  It does not touch
resumeAt. -/
def deactivateKillSwitch (st : RiskState) : RiskState :=
  { st with
    isHalted := false
    haltReason := none
    haltedAt := none }

/-- runAutoHaltChecks (risk-governor.ts lines 126 to 152), evaluated on an
already refreshed state.  Returns the list of incidents the function
returns, alongside the final governor state.  The halt reason strings of
the source interpolate formatted numbers and are presentation-only; the
embedding passes fixed tags in their place. -/
def runAutoHaltChecks (config : BotConfig) (now : ℚ) (s : GovState) :
    List Incident × GovState :=
  let step1 :=
    if |s.risk.todayDrawdownPct| ≥ config.dailyMaxDrawdownPct ∧ s.risk.isHalted = false then
      let s1 := activateKillSwitch "daily drawdown" now s
      let s2 := { s1 with risk := { s1.risk with resumeAt := some (now + 24 * 3600000) } }
      ([({ timestamp := now
           severity := Severity.CRITICAL
           category := IncidentCategory.DAILY_DRAWDOWN
           autoAction := "Trading halted for 24h"
           resolved := false } : Incident)], s2)
    else ([], s)
  let incidents1 := step1.1
  let sMid := step1.2
  let step2 :=
    if sMid.risk.consecutiveLosses ≥ config.maxConsecutiveLosses ∧ sMid.risk.isHalted = false then
      let s1 := activateKillSwitch "consecutive losses" now sMid
      ([({ timestamp := now
           severity := Severity.WARNING
           category := IncidentCategory.CONSECUTIVE_LOSSES
           autoAction := "Trading paused"
           resolved := false } : Incident)], s1)
    else ([], sMid)
  (incidents1 ++ step2.1, step2.2)

/-- resetDailyCounters (risk-governor.ts lines 154 to 163): rebases the
start-of-day equity, zeroes the daily P&L, drawdown and trade counter, and
deactivates the kill switch when a resume timestamp is set and elapsed
(the JS truthiness test riskState.resumeAt also excludes a zero value). -/
def resetDailyCounters (now : ℚ) (st : RiskState) : RiskState :=
  let st1 :=
    { st with
      startOfDayEquity := st.equitySol
      todayPnlSol := 0
      todayPnlPct := 0
      todayDrawdownPct := 0
      todayTradeCount := 0 }
  match st1.resumeAt with
  | some r => if r ≠ 0 ∧ now ≥ r then deactivateKillSwitch st1 else st1
  | none => st1

-- ============================================================================
-- Feature aggregator (features/engine.ts)
-- ============================================================================

/-- Event kinds of the in-memory PumpEvent (features/engine.ts). -/
inductive EventType
  | LAUNCH
  | BUY
  | SELL
  | GRADUATION
deriving DecidableEq, Repr

/-- PumpEvent (features/engine.ts lines 13 to 19). -/
structure PumpEvent where
  type : EventType
  tokenMint : String
  wallet : String
  amountSol : ℚ
  timestamp : ℚ
deriving DecidableEq, Repr

/-- EVENT_WINDOW_MS = 5 minutes (features/engine.ts line 22). -/
def EVENT_WINDOW_MS : ℚ := 5 * 60 * 1000

/-- The two event buffers of features/engine.ts: the global eventBuffer
array and the per-token Map, modelled as an association list. -/
structure FeatureState where
  eventBuffer : List PumpEvent
  tokenEvents : List (String × List PumpEvent)
deriving DecidableEq, Repr

/-- Lookup in the per-token map (the Map.get of the source; empty when the
key is absent). -/
def assocLookup : List (String × List PumpEvent) → String → List PumpEvent
  | [], _ => []
  | p :: m, mint => if p.1 = mint then p.2 else assocLookup m mint

/-- The buffer of a token in a feature state. -/
def tokenBuffer (st : FeatureState) (mint : String) : List PumpEvent :=
  assocLookup st.tokenEvents mint

/-- Push an event onto the buffer of its token, creating the entry when
absent (features/engine.ts lines 29 to 32: the Map.set of an empty list
followed by push). -/
def tokenEventsPush : List (String × List PumpEvent) → PumpEvent →
    List (String × List PumpEvent)
  | [], e => [(e.tokenMint, [e])]
  | p :: m, e =>
      if p.1 = e.tokenMint then (p.1, p.2 ++ [e]) :: m
      else p :: tokenEventsPush m e

/-- recordEvent (features/engine.ts lines 26 to 39): appends the event to
the global and the per-token buffer, then prunes the global buffer from the
front while its first entry is older than twice the window (the source
while-shift loop is exactly dropWhile).  The per-token buffers are not
pruned. -/
def recordEvent (e : PumpEvent) (now : ℚ) (st : FeatureState) : FeatureState :=
  let buf := st.eventBuffer ++ [e]
  let te := tokenEventsPush st.tokenEvents e
  let cutoff := now - EVENT_WINDOW_MS * 2
  { eventBuffer := buf.dropWhile (fun ev => decide (ev.timestamp < cutoff))
    tokenEvents := te }

/-- ExecutionRiskFeatures (types.ts), without the presentation-only reason
string. -/
structure ExecutionRiskFeatures where
  liquidityDepthSol : ℚ
  spreadBps : ℚ
  estimatedSlippageBps : ℤ
  rpcLatencyMs : ℚ
  recentFailureRate : ℚ
  executionRisk : String
deriving DecidableEq, Repr

/-- RPC health counters of features/engine.ts (latency history and the
attempt/failure counters). -/
structure RpcState where
  rpcLatencyHistory : List ℚ
  recentFailures : ℕ
  recentAttempts : ℕ
deriving DecidableEq, Repr

/-- Trailing 60 second buy volume of a token (features/engine.ts lines
263 to 266). -/
def recentBuyVolume (st : FeatureState) (tokenMint : String) (now : ℚ) : ℚ :=
  (((tokenBuffer st tokenMint).filter
      (fun e => e.type = EventType.BUY ∧ e.timestamp > now - 60000)).map
    (fun e => e.amountSol)).sum

/-- Liquidity depth estimate: recent buy volume times 5, floored at 1
(features/engine.ts line 269). -/
def liquidityDepth (st : FeatureState) (tokenMint : String) (now : ℚ) : ℚ :=
  max (recentBuyVolume st tokenMint now * 5) 1

/-- The slippage estimate sub-expression of computeExecutionRiskFeatures
(features/engine.ts lines 275 to 276): round of 1000 times the ratio of
order size to liquidity. -/
def estimateSlippageBps (orderSizeSol liquidityDepthSol : ℚ) : ℤ :=
  jsRound (orderSizeSol / liquidityDepthSol * 1000)

/-- computeExecutionRiskFeatures (features/engine.ts lines 258 to 309). -/
def computeExecutionRiskFeatures (st : FeatureState) (rpc : RpcState)
    (tokenMint : String) (orderSizeSol : ℚ) (now : ℚ) : ExecutionRiskFeatures :=
  let liquidityDepthSol := liquidityDepth st tokenMint now
  let spreadBps := max 50 (min 1000 (5000 / liquidityDepthSol))
  let estimatedSlippageBps := estimateSlippageBps orderSizeSol liquidityDepthSol
  let avgLatency :=
    if rpc.rpcLatencyHistory.length > 0 then
      rpc.rpcLatencyHistory.sum / (rpc.rpcLatencyHistory.length : ℚ)
    else 200
  let failureRate :=
    if rpc.recentAttempts > 0 then (rpc.recentFailures : ℚ) / (rpc.recentAttempts : ℚ)
    else 0
  let executionRisk :=
    if estimatedSlippageBps > 500 ∨ avgLatency > 2000 ∨ failureRate > 2/10 then "HIGH"
    else if estimatedSlippageBps > 200 ∨ avgLatency > 1000 ∨ failureRate > 1/10 then "MEDIUM"
    else "LOW"
  { liquidityDepthSol := liquidityDepthSol
    spreadBps := spreadBps
    estimatedSlippageBps := estimatedSlippageBps
    rpcLatencyMs := avgLatency
    recentFailureRate := failureRate
    executionRisk := executionRisk }

-- ============================================================================
-- Positions, orders and the exit evaluator (types.ts, strategy/engine.ts)
-- ============================================================================

/-- Position lifecycle status (types.ts). -/
inductive PositionStatus
  | OPEN
  | PARTIALLY_CLOSED
  | CLOSED
deriving DecidableEq, Repr

/-- Order status (types.ts). -/
inductive OrderStatus
  | PENDING
  | SUBMITTED
  | CONFIRMED
  | FAILED
  | EXPIRED
  | CANCELLED
deriving DecidableEq, Repr

/-- Order source tags used by the engine (entry signal or one of the exit
signal types). -/
inductive OrderSource
  | ENTRY_SIGNAL
  | STOP_LOSS
  | TAKE_PROFIT
  | TRAILING_STOP
  | TIME_STOP
deriving DecidableEq, Repr

/-- Position (types.ts), restricted to the fields the exit evaluator and
the paper engine read or write.  Generated ids and display strings are not
modelled. -/
structure Position where
  tokenMint : String
  status : PositionStatus
  entryPrice : ℚ
  currentPrice : ℚ
  entryAmountSol : ℚ
  remainingTokens : ℚ
  totalTokensBought : ℚ
  totalTokensSold : ℚ
  realizedPnlSol : ℚ
  unrealizedPnlSol : ℚ
  unrealizedPnlPct : ℚ
  stopLossPrice : ℚ
  takeProfitLevels : List TakeProfitLevel
  trailingStopPct : ℚ
  trailingStopPrice : ℚ
  highWaterMark : ℚ
  timeStopMinutes : ℚ
  entryTime : ℚ
  lastUpdateTime : ℚ
  exitReason : Option OrderSource
deriving DecidableEq, Repr

/-- ExitSignal (strategy/engine.ts lines 308 to 313); the human-readable
reason string interpolates formatted numbers and is presentation-only, so
it is not modelled. -/
structure ExitSignal where
  type : OrderSource
  sellPct : ℚ
  price : ℚ
deriving DecidableEq, Repr

/-- checkExitConditions (strategy/engine.ts lines 315 to 371): stop-loss,
then the take-profit ladder (first untriggered level whose gain the P&L
reached, via the source for-loop early return), then the trailing stop
guarded by a positive P&L, then the time stop.  Note the source does not
mutate the position: the branch that would raise the high-water mark is an
empty comment block and no take-profit level is ever marked triggered. -/
def checkExitConditions (position : Position) (currentPrice : ℚ)
    (config : BotConfig) (now : ℚ) : Option ExitSignal :=
  let pnlPct := (currentPrice - position.entryPrice) / position.entryPrice * 100
  if pnlPct ≤ -config.stopLossPct then
    some { type := OrderSource.STOP_LOSS, sellPct := 100, price := currentPrice }
  else
    match position.takeProfitLevels.find?
        (fun l => !l.triggered && decide (pnlPct ≥ l.pctGain)) with
    | some level =>
        some { type := OrderSource.TAKE_PROFIT, sellPct := level.sellPct, price := currentPrice }
    | none =>
        let trailingStopPrice := position.highWaterMark * (1 - config.trailingStopPct / 100)
        if currentPrice ≤ trailingStopPrice ∧ pnlPct > 0 then
          some { type := OrderSource.TRAILING_STOP, sellPct := 100, price := currentPrice }
        else
          let minutesHeld := (now - position.entryTime) / 60000
          if minutesHeld ≥ config.timeStopMinutes ∧ pnlPct < 10 then
            some { type := OrderSource.TIME_STOP, sellPct := 100, price := currentPrice }
          else none

/-- Modelled from the wording of the specification for comparison with
checkExitConditions: exactly four rules evaluated in strict priority
order, the first that fires wins (none when no rule fires).  Rule 1:
stop-loss when the P&L percentage is at most minus the stop-loss percent,
selling 100.  Rule 2: take-profit for the first untriggered level whose
gain percentage the P&L reached, selling that level sell percentage.
Rule 3: trailing stop when the price is at most the high-water mark times
one minus the trailing percent over 100 and the P&L is positive, selling
100.  Rule 4: time stop when the minutes held reach the limit and the P&L
is below 10, selling 100. -/
def exitSpecFirstMatch (position : Position) (currentPrice : ℚ)
    (config : BotConfig) (now : ℚ) : Option ExitSignal :=
  let pnlPct := (currentPrice - position.entryPrice) / position.entryPrice * 100
  let rule1 : Option ExitSignal :=
    if pnlPct ≤ -config.stopLossPct then
      some { type := OrderSource.STOP_LOSS, sellPct := 100, price := currentPrice }
    else none
  let rule2 : Option ExitSignal :=
    (position.takeProfitLevels.find?
        (fun l => !l.triggered && decide (pnlPct ≥ l.pctGain))).map
      (fun level =>
        { type := OrderSource.TAKE_PROFIT, sellPct := level.sellPct, price := currentPrice })
  let rule3 : Option ExitSignal :=
    if currentPrice ≤ position.highWaterMark * (1 - config.trailingStopPct / 100) ∧ pnlPct > 0 then
      some { type := OrderSource.TRAILING_STOP, sellPct := 100, price := currentPrice }
    else none
  let rule4 : Option ExitSignal :=
    if (now - position.entryTime) / 60000 ≥ config.timeStopMinutes ∧ pnlPct < 10 then
      some { type := OrderSource.TIME_STOP, sellPct := 100, price := currentPrice }
    else none
  [rule1, rule2, rule3, rule4].findSome? id

-- ============================================================================
-- Paper trading engine (paper/engine.ts)
-- ============================================================================

/-- Order side. -/
inductive OrderSide
  | BUY
  | SELL
deriving DecidableEq, Repr

/-- Order (types.ts), restricted to the fields the paper engine writes and
the claims inspect.  The generated uuid, the idempotency key string and the
fake tx signature are presentation of the generated id and are not
modelled. -/
structure Order where
  tokenMint : String
  side : OrderSide
  source : OrderSource
  amountSol : ℚ
  amountTokens : ℚ
  estimatedPrice : ℚ
  executedPrice : Option ℚ
  slippageBps : Option ℤ
  feeSol : Option ℚ
  status : OrderStatus
  errorMessage : Option String
  createdAt : ℚ
deriving DecidableEq, Repr

/-- ExecutionPlan (types.ts), restricted to the fields executeBuy reads. -/
structure ExecutionPlan where
  outputMint : String
  amountInSol : ℚ
  estimatedSlippageBps : ℤ
deriving DecidableEq, Repr

/-- Trading-engine state: the risk singleton plus the order and position
stores (saveOrder and savePosition append; the store upsert key is the
generated id, not modelled, so stores are append-only lists here). -/
structure EngineState where
  risk : RiskState
  positions : List Position
  orders : List Order
deriving DecidableEq, Repr

/-- Random draws consumed by executeBuy, each uniform in [0,1) in the
source (Math.random). -/
structure BuyRand where
  failRand : ℚ
  slipRand : ℚ
  fillDrawRand : ℚ
  fillRatioRand : ℚ
deriving DecidableEq, Repr

/-- executeBuy (paper/engine.ts lines 23 to 101): draws a failure with the
configured probability and on failure saves and returns a FAILED order with
an error message and no other effect; on success computes the degraded
slippage, the fill ratio, a placeholder price, creates a CONFIRMED order
and an OPEN position seeded from the config, and debits equity by the
filled cost plus fee through updateEquity. -/
def executeBuy (config : BotConfig) (plan : ExecutionPlan) (decisionRnd : BuyRand)
    (now : ℚ) (st : EngineState) : Order × EngineState :=
  if decisionRnd.failRand < config.paperFailureRate then
    let order : Order :=
      { tokenMint := plan.outputMint
        side := OrderSide.BUY
        source := OrderSource.ENTRY_SIGNAL
        amountSol := plan.amountInSol
        amountTokens := 0
        estimatedPrice := 0
        executedPrice := none
        slippageBps := none
        feeSol := none
        status := OrderStatus.FAILED
        errorMessage := some "Simulated transaction failure"
        createdAt := now }
    (order, { st with orders := st.orders ++ [order] })
  else
    let actualSlippageBps :=
      jsRound ((plan.estimatedSlippageBps : ℚ) * config.paperSlippageMultiplier *
        (8/10 + decisionRnd.slipRand * (4/10)))
    let fillRatio : ℚ :=
      if decisionRnd.fillDrawRand < 9/10 then 1
      else 1/2 + decisionRnd.fillRatioRand * (1/2)
    let actualAmountSol := plan.amountInSol * fillRatio
    let slippageFactor := 1 + (actualSlippageBps : ℚ) / 10000
    let simulatedPrice := 1/1000000 * slippageFactor
    let tokensReceived := actualAmountSol / simulatedPrice
    let feeSol := actualAmountSol * (3/1000)
    let order : Order :=
      { tokenMint := plan.outputMint
        side := OrderSide.BUY
        source := OrderSource.ENTRY_SIGNAL
        amountSol := actualAmountSol
        amountTokens := tokensReceived
        estimatedPrice := simulatedPrice
        executedPrice := some simulatedPrice
        slippageBps := some actualSlippageBps
        feeSol := some feeSol
        status := OrderStatus.CONFIRMED
        errorMessage := none
        createdAt := now }
    let st1 := { st with orders := st.orders ++ [order] }
    if order.status = OrderStatus.CONFIRMED then
      let stopLossPrice := simulatedPrice * (1 - config.stopLossPct / 100)
      let position : Position :=
        { tokenMint := plan.outputMint
          status := PositionStatus.OPEN
          entryPrice := simulatedPrice
          currentPrice := simulatedPrice
          entryAmountSol := actualAmountSol
          remainingTokens := tokensReceived
          totalTokensBought := tokensReceived
          totalTokensSold := 0
          realizedPnlSol := 0
          unrealizedPnlSol := 0
          unrealizedPnlPct := 0
          stopLossPrice := stopLossPrice
          takeProfitLevels :=
            config.takeProfitLevels.map (fun l => ⟨l.pctGain, l.sellPct, false⟩)
          trailingStopPct := config.trailingStopPct
          trailingStopPrice := stopLossPrice
          highWaterMark := simulatedPrice
          timeStopMinutes := config.timeStopMinutes
          entryTime := now
          lastUpdateTime := now
          exitReason := none }
      (order,
        { st1 with
          positions := st1.positions ++ [position]
          risk := updateEquity (st1.risk.equitySol - actualAmountSol - feeSol) st1.risk })
    else (order, st1)

/-- Random draws consumed by executeSell. -/
structure SellRand where
  failRand : ℚ
  slipRand : ℚ
deriving DecidableEq, Repr

/-- executeSell (paper/engine.ts lines 106 to 169): fails with half the buy
failure probability returning a FAILED order and the untouched position; on
success sells sellPct of the remaining tokens at the slippage-degraded
price, credits the net proceeds to equity, updates the position accounting,
and closes the position (remaining forced to exactly 0 and the exit reason
stamped) when the remainder is at most 0.01, else marks it
PARTIALLY_CLOSED.  The mutated position is the second component (the source
mutates the passed object in place and upserts it by id). -/
def executeSell (config : BotConfig) (position : Position) (sellPct : ℚ)
    (source : OrderSource) (currentPrice : ℚ) (rnd : SellRand) (now : ℚ)
    (st : EngineState) : Order × Position × EngineState :=
  if rnd.failRand < config.paperFailureRate * (1/2) then
    let order : Order :=
      { tokenMint := position.tokenMint
        side := OrderSide.SELL
        source := source
        amountSol := 0
        amountTokens := 0
        estimatedPrice := currentPrice
        executedPrice := none
        slippageBps := none
        feeSol := none
        status := OrderStatus.FAILED
        errorMessage := some "Simulated sell failure"
        createdAt := now }
    (order, position, { st with orders := st.orders ++ [order] })
  else
    let tokensToSell := position.remainingTokens * (sellPct / 100)
    let slippageBps :=
      jsRound (50 * config.paperSlippageMultiplier * (8/10 + rnd.slipRand * (4/10)))
    let executedPrice := currentPrice * (1 - (slippageBps : ℚ) / 10000)
    let solReceived := tokensToSell * executedPrice
    let feeSol := solReceived * (3/1000)
    let netSol := solReceived - feeSol
    let order : Order :=
      { tokenMint := position.tokenMint
        side := OrderSide.SELL
        source := source
        amountSol := netSol
        amountTokens := tokensToSell
        estimatedPrice := currentPrice
        executedPrice := some executedPrice
        slippageBps := some slippageBps
        feeSol := some feeSol
        status := OrderStatus.CONFIRMED
        errorMessage := none
        createdAt := now }
    let pos1 :=
      { position with
        remainingTokens := position.remainingTokens - tokensToSell
        totalTokensSold := position.totalTokensSold + tokensToSell
        realizedPnlSol :=
          position.realizedPnlSol + (netSol - tokensToSell * position.entryPrice)
        lastUpdateTime := now }
    let pos2 :=
      if pos1.remainingTokens ≤ 1/100 then
        { pos1 with
          status := PositionStatus.CLOSED
          remainingTokens := 0
          exitReason := some source }
      else { pos1 with status := PositionStatus.PARTIALLY_CLOSED }
    (order, pos2,
      { st with
        orders := st.orders ++ [order]
        risk := updateEquity (st.risk.equitySol + netSol) st.risk })

-- ============================================================================
-- Theorems
-- ============================================================================

/-- The names of the failing pre-trade checks, in check order: exactly the
list whose join forms the blocked reason. -/
def failedCheckNames (tradeSizeSol : ℚ) (config : BotConfig) (st : RiskState) : List String :=
  ((preTradeChecks tradeSizeSol config st).filter (fun d => !d.passed)).map (fun d => d.check)

/-- Projection lemma: allowed is the conjunction of all check pass flags. -/
theorem checkPreTradeRisk_allowed (tradeSizeSol : ℚ) (config : BotConfig) (st : RiskState) :
    (checkPreTradeRisk tradeSizeSol config st).allowed =
      (preTradeChecks tradeSizeSol config st).all (fun d => d.passed) := rfl

/-- Projection lemma: the reason string of the pre-trade gate. -/
theorem checkPreTradeRisk_reason (tradeSizeSol : ℚ) (config : BotConfig) (st : RiskState) :
    (checkPreTradeRisk tradeSizeSol config st).reason =
      (if (preTradeChecks tradeSizeSol config st).all (fun d => d.passed) then
        "All risk checks passed"
      else "Blocked: " ++ String.intercalate ", " (failedCheckNames tradeSizeSol config st)) := rfl

/-- C1: checkPreTradeRisk returns allowed iff all seven conditions hold
(not halted; absolute drawdown strictly below the daily limit; projected
exposure percent at most the max exposure; trade size percent at most the
per-trade risk; hourly, daily and consecutive-loss counters strictly below
their limits); when blocked the reason is the joined names of exactly the
failing checks, every failing check contributes its name; a halted state is
always blocked with the halt check named in the reason list; and the
default state with a 0.02 trade passes. -/
theorem claim_C1_pre_trade_gate :
    (∀ (st : RiskState) (tradeSizeSol : ℚ) (config : BotConfig),
      ((checkPreTradeRisk tradeSizeSol config st).allowed = true ↔
        (st.isHalted = false ∧
         |st.todayDrawdownPct| < config.dailyMaxDrawdownPct ∧
         (st.currentExposureSol + tradeSizeSol) / st.equitySol * 100 ≤ config.maxExposurePct ∧
         tradeSizeSol / st.equitySol * 100 ≤ config.riskPerTradePct ∧
         st.hourTradeCount < config.maxTradesPerHour ∧
         st.todayTradeCount < config.maxTradesPerDay ∧
         st.consecutiveLosses < config.maxConsecutiveLosses)) ∧
      ((checkPreTradeRisk tradeSizeSol config st).allowed = false →
        (checkPreTradeRisk tradeSizeSol config st).reason =
          "Blocked: " ++ String.intercalate ", " (failedCheckNames tradeSizeSol config st)) ∧
      (∀ d ∈ preTradeChecks tradeSizeSol config st, d.passed = false →
          d.check ∈ failedCheckNames tradeSizeSol config st) ∧
      (st.isHalted = true →
        (checkPreTradeRisk tradeSizeSol config st).allowed = false ∧
        "Not halted" ∈ failedCheckNames tradeSizeSol config st)) ∧
    (checkPreTradeRisk (2/100) DEFAULT_CONFIG initialRiskState).allowed = true := by
  constructor
  · intro st tradeSizeSol config
    refine ⟨?_, ?_, ?_, ?_⟩
    · rw [checkPreTradeRisk_allowed]
      simp [preTradeChecks, List.all, Bool.and_eq_true, decide_eq_true_iff,
        Bool.not_eq_true', and_assoc]
    · intro hfail
      rw [checkPreTradeRisk_allowed] at hfail
      rw [checkPreTradeRisk_reason, if_neg]
      simp [hfail]
    · intro d hd hp
      exact List.mem_map.mpr ⟨d, List.mem_filter.mpr ⟨hd, by simp [hp]⟩, rfl⟩
    · intro hhalt
      constructor
      · rw [checkPreTradeRisk_allowed]
        simp [preTradeChecks, hhalt]
      · simp [failedCheckNames, preTradeChecks, hhalt]
  · rw [checkPreTradeRisk_allowed]
    norm_num [preTradeChecks, initialRiskState, DEFAULT_CONFIG]

/-- C1 witness: a concretely halted default state is blocked. -/
theorem claim_C1_pre_trade_gate_witness :
    (checkPreTradeRisk (2/100) DEFAULT_CONFIG
        { initialRiskState with isHalted := true, haltReason := some "manual" }).allowed = false :=
  ((claim_C1_pre_trade_gate.1 _ (2/100) DEFAULT_CONFIG).2.2.2 rfl).1

/-- The today P&L percentage the governor computes for a new equity value
against a fixed start-of-day equity. -/
def pnlPctOf (startOfDayEquity sol : ℚ) : ℚ := (sol - startOfDayEquity) / startOfDayEquity * 100

/-- A sequence of updateEquity calls applied in order. -/
def applyEquityUpdates (sols : List ℚ) (st : RiskState) : RiskState :=
  sols.foldl (fun s sol => updateEquity sol s) st

/-- updateEquity never changes the start-of-day equity. -/
theorem updateEquity_start (sol : ℚ) (st : RiskState) :
    (updateEquity sol st).startOfDayEquity = st.startOfDayEquity := rfl

/-- The drawdown update of updateEquity is a min with the new P&L percent. -/
theorem updateEquity_dd (sol : ℚ) (st : RiskState) :
    (updateEquity sol st).todayDrawdownPct =
      min st.todayDrawdownPct (pnlPctOf st.startOfDayEquity sol) := by
  simp only [updateEquity, pnlPctOf]
  rcases le_or_lt st.todayDrawdownPct ((sol - st.startOfDayEquity) / st.startOfDayEquity * 100)
      with h | h
  · rw [if_neg (not_lt.mpr h), min_eq_left h]
  · rw [if_pos h, min_eq_right h.le]

/-- Folding min never rises above the initial value. -/
theorem foldl_min_le_init (l : List ℚ) (a : ℚ) : l.foldl min a ≤ a := by
  induction l generalizing a with
  | nil => exact le_rfl
  | cons x xs ih => exact le_trans (ih (min a x)) (min_le_left a x)

/-- Folding min is a lower bound of every list element. -/
theorem foldl_min_le_mem (l : List ℚ) (a p : ℚ) (hp : p ∈ l) : l.foldl min a ≤ p := by
  induction l generalizing a with
  | nil => cases hp
  | cons x xs ih =>
      rcases List.mem_cons.mp hp with rfl | hmem
      · exact le_trans (foldl_min_le_init xs (min a p)) (min_le_right a p)
      · exact ih (min a x) hmem

/-- Folding min is attained: it is the initial value or a list element. -/
theorem foldl_min_eq_init_or_mem (l : List ℚ) (a : ℚ) :
    l.foldl min a = a ∨ l.foldl min a ∈ l := by
  induction l generalizing a with
  | nil => exact Or.inl rfl
  | cons x xs ih =>
      rcases ih (min a x) with h | h
      · rcases min_cases a x with ⟨hm, _⟩ | ⟨hm, _⟩
        · exact Or.inl (by rw [List.foldl_cons, h, hm])
        · exact Or.inr (by rw [List.foldl_cons, h, hm]; exact List.mem_cons_self x xs)
      · exact Or.inr (List.mem_cons_of_mem x h)

/-- Characterization of the drawdown after a sequence of equity updates. -/
theorem applyEquityUpdates_dd (sols : List ℚ) (st : RiskState) :
    (applyEquityUpdates sols st).todayDrawdownPct =
      (sols.map (pnlPctOf st.startOfDayEquity)).foldl min st.todayDrawdownPct := by
  induction sols generalizing st with
  | nil => rfl
  | cons sol rest ih =>
      show (applyEquityUpdates rest (updateEquity sol st)).todayDrawdownPct = _
      rw [ih, updateEquity_start, List.map_cons, List.foldl_cons, updateEquity_dd]

/-- C8: todayDrawdownPct is monotone non-increasing under updateEquity;
from a reset state (drawdown 0) a sequence of updateEquity calls leaves it
equal to the minimum of 0 and all observed P&L percentages, hence at most
0, a lower bound of every observed P&L percentage, and either 0 or an
observed value; and resetDailyCounters restores it to 0. -/
theorem claim_C8_drawdown_ratchet :
    (∀ (st : RiskState) (sol : ℚ),
      (updateEquity sol st).todayDrawdownPct ≤ st.todayDrawdownPct) ∧
    (∀ (st : RiskState) (sols : List ℚ), st.todayDrawdownPct = 0 →
      (applyEquityUpdates sols st).todayDrawdownPct =
        (sols.map (pnlPctOf st.startOfDayEquity)).foldl min 0 ∧
      (applyEquityUpdates sols st).todayDrawdownPct ≤ 0 ∧
      (∀ p ∈ sols.map (pnlPctOf st.startOfDayEquity),
        (applyEquityUpdates sols st).todayDrawdownPct ≤ p) ∧
      ((applyEquityUpdates sols st).todayDrawdownPct = 0 ∨
        (applyEquityUpdates sols st).todayDrawdownPct ∈
          sols.map (pnlPctOf st.startOfDayEquity))) ∧
    (∀ (st : RiskState) (now : ℚ), (resetDailyCounters now st).todayDrawdownPct = 0) := by
  refine ⟨?_, ?_, ?_⟩
  · intro st sol
    rw [updateEquity_dd]
    exact min_le_left _ _
  · intro st sols h0
    rw [applyEquityUpdates_dd, h0]
    exact ⟨rfl, foldl_min_le_init _ _,
      fun p hp => foldl_min_le_mem _ _ _ hp, foldl_min_eq_init_or_mem _ _⟩
  · intro st now
    rcases h : st.resumeAt with _ | r
    · simp [resetDailyCounters, h]
    · simp only [resetDailyCounters, h]
      split
      · rfl
      · rfl

/-- C8 witness: one update to equity 9 from the default state records a
drawdown equal to the folded minimum of the observed P&L percentages. -/
theorem claim_C8_drawdown_ratchet_witness :
    (applyEquityUpdates [9] initialRiskState).todayDrawdownPct =
      ([9].map (pnlPctOf initialRiskState.startOfDayEquity)).foldl min 0 :=
  (claim_C8_drawdown_ratchet.2.1 initialRiskState [9] rfl).1

/-- C10: deactivateKillSwitch clears the halted flag, the halt reason and
the halted-at stamp but leaves resumeAt untouched; consequently on any
state carrying a set, nonzero, elapsed resumeAt, a later kill-switch
activation of any kind is auto-deactivated by resetDailyCounters. -/
theorem claim_C10_stale_resume :
    (∀ st : RiskState,
      (deactivateKillSwitch st).isHalted = false ∧
      (deactivateKillSwitch st).haltReason = none ∧
      (deactivateKillSwitch st).haltedAt = none ∧
      (deactivateKillSwitch st).resumeAt = st.resumeAt) ∧
    (∀ (s : GovState) (reason : String) (t now r : ℚ),
      s.risk.resumeAt = some r → r ≠ 0 → now ≥ r →
      (activateKillSwitch reason t s).risk.isHalted = true ∧
      (resetDailyCounters now (activateKillSwitch reason t s).risk).isHalted = false) := by
  refine ⟨fun st => ⟨rfl, rfl, rfl, rfl⟩, ?_⟩
  intro s reason t now r hres hr hnow
  refine ⟨rfl, ?_⟩
  have hres2 : (activateKillSwitch reason t s).risk.resumeAt = some r := hres
  simp [resetDailyCounters, deactivateKillSwitch, hres2, hr, hnow]

/-- C10 witness: a manual halt on a state with a stale elapsed resume
timestamp is auto-deactivated by the daily reset. -/
theorem claim_C10_stale_resume_witness :
    (resetDailyCounters 6 (activateKillSwitch "manual halt" 1
        ⟨{ initialRiskState with resumeAt := some 5 }, []⟩).risk).isHalted = false :=
  (claim_C10_stale_resume.2 ⟨{ initialRiskState with resumeAt := some 5 }, []⟩
    "manual halt" 1 6 5 rfl (by norm_num) (by norm_num)).2

/-- The CRITICAL incident saveIncident records on every kill-switch
activation. -/
def killSwitchIncident (t : ℚ) : Incident :=
  { timestamp := t, severity := Severity.CRITICAL, category := IncidentCategory.KILL_SWITCH,
    autoAction := "All new orders blocked", resolved := false }

/-- C2 (amended): on an unhalted state a drawdown breach halts, returns a
CRITICAL DAILY_DRAWDOWN incident, sets a 24-hour auto-resume timestamp and
saves the CRITICAL kill-switch incident; the consecutive-loss branch fires
only when the drawdown branch did not fire in the same call (the source
re-reads the halted flag after the first branch), in which case it halts,
returns a WARNING CONSECUTIVE_LOSSES incident, leaves resumeAt unchanged
and saves the CRITICAL kill-switch incident; an already halted state is
returned unchanged with no incidents; and every kill-switch activation
saves a CRITICAL incident. -/
theorem claim_C2_auto_halt (config : BotConfig) (now : ℚ) (s : GovState) :
    (s.risk.isHalted = false → |s.risk.todayDrawdownPct| ≥ config.dailyMaxDrawdownPct →
      ((runAutoHaltChecks config now s).2.risk.isHalted = true ∧
       (runAutoHaltChecks config now s).2.risk.resumeAt = some (now + 24 * 3600000) ∧
       (runAutoHaltChecks config now s).1 =
         [{ timestamp := now, severity := Severity.CRITICAL,
            category := IncidentCategory.DAILY_DRAWDOWN,
            autoAction := "Trading halted for 24h", resolved := false }] ∧
       (runAutoHaltChecks config now s).2.incidentLog =
         s.incidentLog ++ [killSwitchIncident now])) ∧
    (s.risk.isHalted = false → |s.risk.todayDrawdownPct| < config.dailyMaxDrawdownPct →
      s.risk.consecutiveLosses ≥ config.maxConsecutiveLosses →
      ((runAutoHaltChecks config now s).2.risk.isHalted = true ∧
       (runAutoHaltChecks config now s).2.risk.resumeAt = s.risk.resumeAt ∧
       (runAutoHaltChecks config now s).1 =
         [{ timestamp := now, severity := Severity.WARNING,
            category := IncidentCategory.CONSECUTIVE_LOSSES,
            autoAction := "Trading paused", resolved := false }] ∧
       (runAutoHaltChecks config now s).2.incidentLog =
         s.incidentLog ++ [killSwitchIncident now])) ∧
    (s.risk.isHalted = true → runAutoHaltChecks config now s = ([], s)) ∧
    (∀ (reason : String) (t : ℚ),
      (activateKillSwitch reason t s).incidentLog = s.incidentLog ++ [killSwitchIncident t] ∧
      (activateKillSwitch reason t s).risk.isHalted = true) := by
  refine ⟨?_, ?_, ?_, fun reason t => ⟨rfl, rfl⟩⟩
  · intro hh hdd
    have hc1 : |s.risk.todayDrawdownPct| ≥ config.dailyMaxDrawdownPct ∧ s.risk.isHalted = false :=
      ⟨hdd, hh⟩
    simp only [runAutoHaltChecks, if_pos hc1, activateKillSwitch]
    simp [killSwitchIncident]
  · intro hh hdd hcl
    have hc1 : ¬ (|s.risk.todayDrawdownPct| ≥ config.dailyMaxDrawdownPct ∧
        s.risk.isHalted = false) := fun h => absurd h.1 (not_le.mpr hdd)
    simp only [runAutoHaltChecks, if_neg hc1]
    have hc2 : s.risk.consecutiveLosses ≥ config.maxConsecutiveLosses ∧
        s.risk.isHalted = false := ⟨hcl, hh⟩
    simp only [if_pos hc2, activateKillSwitch]
    simp [killSwitchIncident]
  · intro hh
    have hc1 : ¬ (|s.risk.todayDrawdownPct| ≥ config.dailyMaxDrawdownPct ∧
        s.risk.isHalted = false) := fun h => by rw [hh] at h; cases h.2
    have hc2 : ¬ (s.risk.consecutiveLosses ≥ config.maxConsecutiveLosses ∧
        s.risk.isHalted = false) := fun h => by rw [hh] at h; cases h.2
    simp [runAutoHaltChecks, if_neg hc1, if_neg hc2]

/-- An unhalted state breaching both the drawdown limit and the
consecutive-loss limit at once. -/
def doubleBreachState : GovState :=
  ⟨{ initialRiskState with todayDrawdownPct := -5, consecutiveLosses := 5 }, []⟩

/-- C2 counterexample to the claim as stated: on an unhalted state whose
consecutive losses reach the limit, runAutoHaltChecks records no WARNING
incident at all when the drawdown limit is breached in the same call (only
the CRITICAL drawdown incident is returned). -/
theorem claim_C2_auto_halt_counterexample :
    doubleBreachState.risk.isHalted = false ∧
    doubleBreachState.risk.consecutiveLosses ≥ DEFAULT_CONFIG.maxConsecutiveLosses ∧
    ∀ i ∈ (runAutoHaltChecks DEFAULT_CONFIG 0 doubleBreachState).1,
      i.severity ≠ Severity.WARNING := by
  refine ⟨rfl, by norm_num [doubleBreachState, DEFAULT_CONFIG, initialRiskState], ?_⟩
  intro i hi
  have : (runAutoHaltChecks DEFAULT_CONFIG 0 doubleBreachState).1 =
      [{ timestamp := 0, severity := Severity.CRITICAL,
         category := IncidentCategory.DAILY_DRAWDOWN,
         autoAction := "Trading halted for 24h", resolved := false }] := by
    norm_num [runAutoHaltChecks, activateKillSwitch, doubleBreachState, DEFAULT_CONFIG,
      initialRiskState]
  rw [this] at hi
  rcases List.mem_singleton.mp hi with rfl
  simp

/-- C2 witness: a pure consecutive-loss breach yields exactly the WARNING
incident. -/
theorem claim_C2_auto_halt_witness :
    (runAutoHaltChecks DEFAULT_CONFIG 0
        ⟨{ initialRiskState with consecutiveLosses := 4 }, []⟩).1 =
      [{ timestamp := 0, severity := Severity.WARNING,
         category := IncidentCategory.CONSECUTIVE_LOSSES,
         autoAction := "Trading paused", resolved := false }] :=
  ((claim_C2_auto_halt DEFAULT_CONFIG 0
      ⟨{ initialRiskState with consecutiveLosses := 4 }, []⟩).2.1 rfl
    (by norm_num [initialRiskState, DEFAULT_CONFIG])
    (by norm_num [initialRiskState, DEFAULT_CONFIG])).2.2.1

/-- The exit evaluator equals the four-rule first-match description of the
specification, for every position, price, config and time. -/
theorem checkExit_eq_spec (pos : Position) (price : ℚ) (config : BotConfig) (now : ℚ) :
    checkExitConditions pos price config now = exitSpecFirstMatch pos price config now := by
  simp only [checkExitConditions, exitSpecFirstMatch, List.findSome?]
  by_cases h1 : (price - pos.entryPrice) / pos.entryPrice * 100 ≤ -config.stopLossPct
  · simp only [id_eq, if_pos h1]
  · cases hf : pos.takeProfitLevels.find?
        (fun l => !l.triggered && decide ((price - pos.entryPrice) / pos.entryPrice * 100 ≥ l.pctGain)) with
    | some level => simp only [id_eq, if_neg h1, hf, Option.map_some']
    | none =>
      by_cases h3 : price ≤ pos.highWaterMark * (1 - config.trailingStopPct / 100) ∧
          (price - pos.entryPrice) / pos.entryPrice * 100 > 0
      · simp only [id_eq, if_neg h1, hf, Option.map_none', if_pos h3]
      · by_cases h4 : (now - pos.entryTime) / 60000 ≥ config.timeStopMinutes ∧
            (price - pos.entryPrice) / pos.entryPrice * 100 < 10
        · simp only [id_eq, if_neg h1, hf, Option.map_none', if_neg h3, if_pos h4]
        · simp only [id_eq, if_neg h1, hf, Option.map_none', if_neg h3, if_neg h4]

/-- A fresh position entered at price 100 with the default exit parameters
and both take-profit levels still untriggered. -/
def freshPosition : Position :=
  { tokenMint := "MINT", status := PositionStatus.OPEN, entryPrice := 100,
    currentPrice := 100, entryAmountSol := 1, remainingTokens := 1,
    totalTokensBought := 1, totalTokensSold := 0, realizedPnlSol := 0,
    unrealizedPnlSol := 0, unrealizedPnlPct := 0, stopLossPrice := 75,
    takeProfitLevels := [⟨50, 30, false⟩, ⟨100, 30, false⟩],
    trailingStopPct := 15, trailingStopPrice := 75, highWaterMark := 100,
    timeStopMinutes := 60, entryTime := 0, lastUpdateTime := 0,
    exitReason := none }

/-- A position whose take-profit ladder is exhausted, riding the remainder
with a high-water mark of 200. -/
def riddenPosition : Position :=
  { freshPosition with
    highWaterMark := 200
    takeProfitLevels := [⟨50, 30, true⟩, ⟨100, 30, true⟩] }

/-- A position with a high-water mark of 105, used for the time-stop case. -/
def stalePosition : Position := { freshPosition with highWaterMark := 105 }

/-- C3: checkExitConditions is exactly the four-rule strict-priority
first-match evaluator of the spec; whenever the stop-loss condition holds
(in particular when the trailing-stop condition holds as well) the result
is the STOP_LOSS signal; and the concrete spec cases hold: entry 100 price
74 fires STOP_LOSS, price 80 fires nothing, price 150 fires TAKE_PROFIT
selling 30 at the +50 level, high-water mark 200 with 15 percent trailing
fires TRAILING_STOP at 165 and nothing at 175, and 61 minutes held with a
5 percent gain fires TIME_STOP against a 60-minute limit. -/
theorem claim_C3_exit_priority :
    (∀ (pos : Position) (price : ℚ) (config : BotConfig) (now : ℚ),
      checkExitConditions pos price config now = exitSpecFirstMatch pos price config now) ∧
    (∀ (pos : Position) (price : ℚ) (config : BotConfig) (now : ℚ),
      (price - pos.entryPrice) / pos.entryPrice * 100 ≤ -config.stopLossPct →
      price ≤ pos.highWaterMark * (1 - config.trailingStopPct / 100) →
      (price - pos.entryPrice) / pos.entryPrice * 100 > 0 →
      checkExitConditions pos price config now =
        some { type := OrderSource.STOP_LOSS, sellPct := 100, price := price }) ∧
    checkExitConditions freshPosition 74 DEFAULT_CONFIG 0 =
      some { type := OrderSource.STOP_LOSS, sellPct := 100, price := 74 } ∧
    checkExitConditions freshPosition 80 DEFAULT_CONFIG 0 = none ∧
    checkExitConditions freshPosition 150 DEFAULT_CONFIG 0 =
      some { type := OrderSource.TAKE_PROFIT, sellPct := 30, price := 150 } ∧
    checkExitConditions riddenPosition 165 DEFAULT_CONFIG 0 =
      some { type := OrderSource.TRAILING_STOP, sellPct := 100, price := 165 } ∧
    checkExitConditions riddenPosition 175 DEFAULT_CONFIG 0 = none ∧
    checkExitConditions stalePosition 105 DEFAULT_CONFIG (61 * 60000) =
      some { type := OrderSource.TIME_STOP, sellPct := 100, price := 105 } := by
  refine ⟨checkExit_eq_spec, ?_, ?_, ?_, ?_, ?_, ?_, ?_⟩
  · intro pos price config now h1 _ _
    simp only [checkExitConditions, if_pos h1]
  · norm_num [checkExitConditions, freshPosition, DEFAULT_CONFIG, List.find?]
  · norm_num [checkExitConditions, freshPosition, DEFAULT_CONFIG, List.find?]
  · norm_num [checkExitConditions, freshPosition, DEFAULT_CONFIG, List.find?]
  · norm_num [checkExitConditions, riddenPosition, freshPosition, DEFAULT_CONFIG, List.find?]
  · norm_num [checkExitConditions, riddenPosition, freshPosition, DEFAULT_CONFIG, List.find?]
  · norm_num [checkExitConditions, stalePosition, freshPosition, DEFAULT_CONFIG, List.find?]

/-- C3 witness: with a negative stop-loss percent both the stop-loss and
the trailing-stop conditions hold at once, and STOP_LOSS wins by
priority. -/
theorem claim_C3_exit_priority_witness :
    checkExitConditions riddenPosition 105 { DEFAULT_CONFIG with stopLossPct := -10 } 0 =
      some { type := OrderSource.STOP_LOSS, sellPct := 100, price := 105 } :=
  claim_C3_exit_priority.2.1 riddenPosition 105 { DEFAULT_CONFIG with stopLossPct := -10 } 0
    (by norm_num [riddenPosition, freshPosition])
    (by norm_num [riddenPosition, freshPosition, DEFAULT_CONFIG])
    (by norm_num [riddenPosition, freshPosition])

/-- The empty trading-engine state with the default risk state. -/
def engineState0 : EngineState := ⟨initialRiskState, [], []⟩

/-- executeSell never touches the take-profit ladder of the position, in
either the failure or the success branch. -/
theorem executeSell_preserves_takeProfitLevels (config : BotConfig) (pos : Position)
    (sellPct : ℚ) (src : OrderSource) (price : ℚ) (rnd : SellRand) (now : ℚ)
    (st : EngineState) :
    (executeSell config pos sellPct src price rnd now st).2.1.takeProfitLevels =
      pos.takeProfitLevels := by
  simp only [executeSell]
  split
  · rfl
  · split
    · rfl
    · rfl

/-- C6: the take-profit level is never marked triggered.  The evaluator
returns the +50 level signal for a fresh position at price 150, the sell
path leaves every take-profit level (hence the triggered flag) unchanged
for all inputs, and re-evaluating the very position produced by that sell
at the same price fires the same +50 level again. -/
theorem claim_C6_take_profit_never_marked :
    checkExitConditions freshPosition 150 DEFAULT_CONFIG 0 =
      some { type := OrderSource.TAKE_PROFIT, sellPct := 30, price := 150 } ∧
    (∀ (config : BotConfig) (pos : Position) (sellPct : ℚ) (src : OrderSource)
        (price : ℚ) (rnd : SellRand) (now : ℚ) (st : EngineState),
      (executeSell config pos sellPct src price rnd now st).2.1.takeProfitLevels =
        pos.takeProfitLevels) ∧
    checkExitConditions
        (executeSell DEFAULT_CONFIG freshPosition 30 OrderSource.TAKE_PROFIT 150
          ⟨1, 0⟩ 0 engineState0).2.1 150 DEFAULT_CONFIG 0 =
      some { type := OrderSource.TAKE_PROFIT, sellPct := 30, price := 150 } := by
  refine ⟨?_, executeSell_preserves_takeProfitLevels, ?_⟩
  · norm_num [checkExitConditions, freshPosition, DEFAULT_CONFIG, List.find?]
  · norm_num [executeSell, checkExitConditions, freshPosition, DEFAULT_CONFIG,
      engineState0, initialRiskState, List.find?, jsRound, updateEquity]

/-- C4: when the simulated buy failure draw fires, executeBuy saves and
returns a FAILED order carrying an error message, and has no other effect:
no position is created, the risk state (hence equity) is unchanged, and the
order store only gains the failed order. -/
theorem claim_C4_buy_failure_atomic :
    ∀ (config : BotConfig) (plan : ExecutionPlan) (rnd : BuyRand) (now : ℚ) (st : EngineState),
      rnd.failRand < config.paperFailureRate →
      ((executeBuy config plan rnd now st).1.status = OrderStatus.FAILED ∧
       (executeBuy config plan rnd now st).1.errorMessage = some "Simulated transaction failure" ∧
       (executeBuy config plan rnd now st).2.positions = st.positions ∧
       (executeBuy config plan rnd now st).2.risk = st.risk ∧
       (executeBuy config plan rnd now st).2.orders =
         st.orders ++ [(executeBuy config plan rnd now st).1]) := by
  intro config plan rnd now st h
  simp [executeBuy, if_pos h]

/-- A small sample execution plan for concrete runs. -/
def samplePlan : ExecutionPlan := ⟨"MINT", 2/100, 100⟩

/-- C4 witness: a failing draw (0 below the default 5 percent failure
rate) creates no position. -/
theorem claim_C4_buy_failure_atomic_witness :
    (executeBuy DEFAULT_CONFIG samplePlan ⟨0, 0, 0, 0⟩ 0 engineState0).2.positions =
      engineState0.positions :=
  (claim_C4_buy_failure_atomic DEFAULT_CONFIG samplePlan ⟨0, 0, 0, 0⟩ 0 engineState0
    (by norm_num [DEFAULT_CONFIG])).2.2.1

/-- C5 (amended): a successful executeSell on a position satisfying the
accounting invariant, with a sell percentage in 0..100, leaves the
remaining tokens nonnegative and the position in CLOSED or
PARTIALLY_CLOSED; it is CLOSED exactly when the post-sale remainder is at
most the 0.01 tolerance; a PARTIALLY_CLOSED result preserves the exact
invariant remaining = bought - sold; a CLOSED result forces remaining to
exactly 0 while bought - sold stays within the tolerance (0 to 0.01), so
the exact invariant is preserved only up to the close tolerance. -/
theorem claim_C5_sell_accounting :
    ∀ (config : BotConfig) (pos : Position) (sellPct : ℚ) (src : OrderSource)
      (price : ℚ) (rnd : SellRand) (now : ℚ) (st : EngineState),
      pos.remainingTokens = pos.totalTokensBought - pos.totalTokensSold →
      0 ≤ pos.remainingTokens → 0 ≤ sellPct → sellPct ≤ 100 →
      ¬ rnd.failRand < config.paperFailureRate * (1/2) →
      (0 ≤ (executeSell config pos sellPct src price rnd now st).2.1.remainingTokens ∧
       ((executeSell config pos sellPct src price rnd now st).2.1.status = PositionStatus.CLOSED ∨
        (executeSell config pos sellPct src price rnd now st).2.1.status =
          PositionStatus.PARTIALLY_CLOSED) ∧
       ((executeSell config pos sellPct src price rnd now st).2.1.status = PositionStatus.CLOSED ↔
         pos.remainingTokens - pos.remainingTokens * (sellPct / 100) ≤ 1/100) ∧
       ((executeSell config pos sellPct src price rnd now st).2.1.status =
          PositionStatus.PARTIALLY_CLOSED →
         (executeSell config pos sellPct src price rnd now st).2.1.remainingTokens =
           (executeSell config pos sellPct src price rnd now st).2.1.totalTokensBought -
           (executeSell config pos sellPct src price rnd now st).2.1.totalTokensSold) ∧
       ((executeSell config pos sellPct src price rnd now st).2.1.status = PositionStatus.CLOSED →
         (executeSell config pos sellPct src price rnd now st).2.1.remainingTokens = 0 ∧
         0 ≤ (executeSell config pos sellPct src price rnd now st).2.1.totalTokensBought -
           (executeSell config pos sellPct src price rnd now st).2.1.totalTokensSold ∧
         (executeSell config pos sellPct src price rnd now st).2.1.totalTokensBought -
           (executeSell config pos sellPct src price rnd now st).2.1.totalTokensSold ≤ 1/100)) := by
  intro config pos sellPct src price rnd now st hinv hrem hsp0 hsp100 hfail
  have hdiv0 : (0:ℚ) ≤ sellPct / 100 := div_nonneg hsp0 (by norm_num)
  have hdiv1 : sellPct / 100 ≤ 1 := (div_le_one (by norm_num)).mpr hsp100
  have ht0 : 0 ≤ pos.remainingTokens * (sellPct / 100) := mul_nonneg hrem hdiv0
  have hrem1 : 0 ≤ pos.remainingTokens - pos.remainingTokens * (sellPct / 100) := by
    nlinarith
  simp only [executeSell, if_neg hfail]
  by_cases hc : pos.remainingTokens - pos.remainingTokens * (sellPct / 100) ≤ 1/100
  · rw [if_pos hc]
    refine ⟨le_rfl, Or.inl rfl, Iff.intro (fun _ => hc) (fun _ => rfl),
      fun hps => PositionStatus.noConfusion hps, fun _ => ⟨rfl, ?_, ?_⟩⟩
    · show (0:ℚ) ≤ pos.totalTokensBought -
        (pos.totalTokensSold + pos.remainingTokens * (sellPct / 100))
      rw [hinv] at hrem1 ⊢
      linarith
    · show pos.totalTokensBought -
        (pos.totalTokensSold + pos.remainingTokens * (sellPct / 100)) ≤ 1/100
      rw [hinv] at hc ⊢
      linarith
  · rw [if_neg hc]
    refine ⟨hrem1, Or.inr rfl,
      Iff.intro (fun hps => PositionStatus.noConfusion hps) (fun h => absurd h hc),
      fun _ => ?_, fun hps => PositionStatus.noConfusion hps⟩
    show pos.remainingTokens - pos.remainingTokens * (sellPct / 100) =
      pos.totalTokensBought - (pos.totalTokensSold + pos.remainingTokens * (sellPct / 100))
    rw [hinv]
    ring

/-- A position holding 0.02 remaining tokens of 1 bought, 0.98 sold. -/
def nearEmptyPosition : Position :=
  { freshPosition with remainingTokens := 2/100, totalTokensSold := 98/100 }

/-- C5 counterexample to the claim as stated: selling 50 percent of a
0.02-token remainder satisfies the invariant before the sale, yet after
the successful sale remaining (forced to 0 by the close branch) differs
from bought minus sold (0.01), so the exact accounting equality is not
preserved. -/
theorem claim_C5_sell_accounting_counterexample :
    nearEmptyPosition.remainingTokens =
      nearEmptyPosition.totalTokensBought - nearEmptyPosition.totalTokensSold ∧
    ¬ (executeSell DEFAULT_CONFIG nearEmptyPosition 50 OrderSource.TAKE_PROFIT 1 ⟨1, 0⟩ 0
        engineState0).2.1.remainingTokens =
      (executeSell DEFAULT_CONFIG nearEmptyPosition 50 OrderSource.TAKE_PROFIT 1 ⟨1, 0⟩ 0
        engineState0).2.1.totalTokensBought -
      (executeSell DEFAULT_CONFIG nearEmptyPosition 50 OrderSource.TAKE_PROFIT 1 ⟨1, 0⟩ 0
        engineState0).2.1.totalTokensSold := by
  constructor
  · norm_num [nearEmptyPosition, freshPosition]
  · norm_num [executeSell, nearEmptyPosition, freshPosition, DEFAULT_CONFIG, engineState0,
      initialRiskState, jsRound, updateEquity]

/-- C5 witness: a successful 30 percent sale of a fresh position leaves a
nonnegative remainder. -/
theorem claim_C5_sell_accounting_witness :
    0 ≤ (executeSell DEFAULT_CONFIG freshPosition 30 OrderSource.STOP_LOSS 150 ⟨1, 0⟩ 0
        engineState0).2.1.remainingTokens :=
  (claim_C5_sell_accounting DEFAULT_CONFIG freshPosition 30 OrderSource.STOP_LOSS 150 ⟨1, 0⟩ 0
    engineState0 (by norm_num [freshPosition]) (by norm_num [freshPosition]) (by norm_num)
    (by norm_num) (by norm_num [DEFAULT_CONFIG])).1

/-- On a list sorted by timestamp, dropping the stale front leaves only
entries at or past the cutoff. -/
theorem dropWhile_stale_bound (c : ℚ) :
    ∀ (l : List PumpEvent), l.Pairwise (fun a b => a.timestamp ≤ b.timestamp) →
      ∀ ev ∈ l.dropWhile (fun x => decide (x.timestamp < c)), c ≤ ev.timestamp := by
  intro l
  induction l with
  | nil =>
      intro _ ev h
      simp [List.dropWhile] at h
  | cons a l ih =>
      intro hs
      rw [List.dropWhile_cons]
      rcases List.pairwise_cons.mp hs with ⟨hale, htail⟩
      by_cases ha : a.timestamp < c
      · rw [if_pos (by simpa using ha)]
        exact ih htail
      · rw [if_neg (by simpa using ha)]
        intro ev hev
        rcases List.mem_cons.mp hev with rfl | hmem
        · exact not_lt.mp ha
        · exact le_trans (not_lt.mp ha) (hale ev hmem)

/-- Pushing an event appends it to the buffer of its own token. -/
theorem tokenEventsPush_self (e : PumpEvent) :
    ∀ m, assocLookup (tokenEventsPush m e) e.tokenMint = assocLookup m e.tokenMint ++ [e] := by
  intro m
  induction m with
  | nil => simp [tokenEventsPush, assocLookup]
  | cons p m ih =>
      by_cases hp : p.1 = e.tokenMint
      · simp [tokenEventsPush, assocLookup, hp]
      · simp [tokenEventsPush, assocLookup, hp, ih]

/-- Pushing an event leaves every other token buffer unchanged. -/
theorem tokenEventsPush_other (e : PumpEvent) (mint : String) (hne : mint ≠ e.tokenMint) :
    ∀ m, assocLookup (tokenEventsPush m e) mint = assocLookup m mint := by
  have hne2 : ¬ e.tokenMint = mint := fun h => hne h.symm
  intro m
  induction m with
  | nil => simp [tokenEventsPush, assocLookup, hne2]
  | cons p m ih =>
      by_cases hp : p.1 = e.tokenMint
      · simp [tokenEventsPush, assocLookup, hp, hne2]
      · simp [tokenEventsPush, assocLookup, hp, ih]

/-- C7 (amended): the lazy pruning of recordEvent bounds only the global
buffer, and only under chronological arrival: when the pre-insert global
buffer with the new event appended is sorted by timestamp, every event
remaining in the global buffer after the insert is no older than twice the
five-minute window before the insert time.  The per-asset buffers are
never pruned: the inserted event is appended to the buffer of its token
and every per-asset buffer keeps all of its old events. -/
theorem claim_C7_event_pruning :
    (∀ (e : PumpEvent) (now : ℚ) (st : FeatureState),
      (st.eventBuffer ++ [e]).Pairwise (fun a b => a.timestamp ≤ b.timestamp) →
      ∀ ev ∈ (recordEvent e now st).eventBuffer,
        now - EVENT_WINDOW_MS * 2 ≤ ev.timestamp) ∧
    (∀ (e : PumpEvent) (now : ℚ) (st : FeatureState),
      tokenBuffer (recordEvent e now st) e.tokenMint = tokenBuffer st e.tokenMint ++ [e] ∧
      ∀ mint, mint ≠ e.tokenMint →
        tokenBuffer (recordEvent e now st) mint = tokenBuffer st mint) := by
  constructor
  · intro e now st hs
    exact dropWhile_stale_bound (now - EVENT_WINDOW_MS * 2) (st.eventBuffer ++ [e]) hs
  · intro e now st
    exact ⟨tokenEventsPush_self e st.tokenEvents,
      fun mint hne => tokenEventsPush_other e mint hne st.tokenEvents⟩

/-- The empty pair of event buffers. -/
def emptyFeatureState : FeatureState := ⟨[], []⟩

/-- A buy of token A at time 0. -/
def earlyBuyEvent : PumpEvent := ⟨EventType.BUY, "A", "w1", 1, 0⟩

/-- A buy of token B at time 2000000 (well past twice the window after
the early event). -/
def lateBuyEvent : PumpEvent := ⟨EventType.BUY, "B", "w2", 1, 2000000⟩

/-- C7 counterexample to the claim as stated: after recording the late
event, the per-asset buffer of token A still holds the early event, whose
timestamp is older than twice the window before the insert time, even
though the same event was pruned from the global buffer. -/
theorem claim_C7_event_pruning_counterexample :
    earlyBuyEvent ∈ tokenBuffer
        (recordEvent lateBuyEvent 2000000 (recordEvent earlyBuyEvent 0 emptyFeatureState)) "A" ∧
    earlyBuyEvent.timestamp < 2000000 - EVENT_WINDOW_MS * 2 ∧
    earlyBuyEvent ∉
      (recordEvent lateBuyEvent 2000000 (recordEvent earlyBuyEvent 0 emptyFeatureState)).eventBuffer := by
  refine ⟨?_, ?_, ?_⟩
  · norm_num [recordEvent, emptyFeatureState, earlyBuyEvent, lateBuyEvent, tokenBuffer,
      tokenEventsPush, assocLookup, EVENT_WINDOW_MS, List.dropWhile]
  · norm_num [earlyBuyEvent, EVENT_WINDOW_MS]
  · norm_num [recordEvent, emptyFeatureState, earlyBuyEvent, lateBuyEvent,
      EVENT_WINDOW_MS, List.dropWhile]

/-- A buy recorded at its own fresh timestamp. -/
def freshRecordedEvent : PumpEvent := ⟨EventType.BUY, "A", "w1", 1, 100000⟩

/-- C7 witness: recording one fresh event into the empty state keeps it in
the global buffer, above the cutoff. -/
theorem claim_C7_event_pruning_witness :
    (100000:ℚ) - EVENT_WINDOW_MS * 2 ≤ freshRecordedEvent.timestamp :=
  claim_C7_event_pruning.1 freshRecordedEvent 100000 emptyFeatureState
    (by simp [emptyFeatureState]) freshRecordedEvent
    (by norm_num [recordEvent, emptyFeatureState, freshRecordedEvent, EVENT_WINDOW_MS,
      List.dropWhile])

/-- The slippage estimate is monotone (non-strictly) in order size for a
positive fixed liquidity. -/
theorem estimateSlippage_mono (liq s1 s2 : ℚ) (hliq : 0 < liq) (hs : s1 ≤ s2) :
    estimateSlippageBps s1 liq ≤ estimateSlippageBps s2 liq := by
  simp only [estimateSlippageBps, jsRound]
  have hdiv : s1 / liq ≤ s2 / liq := by
    rw [div_eq_mul_inv, div_eq_mul_inv]
    exact mul_le_mul_of_nonneg_right hs (inv_nonneg.mpr hliq.le)
  have hmul : s1 / liq * 1000 ≤ s2 / liq * 1000 :=
    mul_le_mul_of_nonneg_right hdiv (by norm_num)
  exact Int.floor_le_floor (by linarith)

/-- C9 (amended): the execution-risk slippage estimate is the rounded
value of 1000 times order size over liquidity; it is 0 for a zero-size
order, weakly (not strictly) increasing in order size for fixed positive
liquidity, the spec comparison estimate of size 5 against size 0.1 at
liquidity 50 is strict, and computeExecutionRiskFeatures reports exactly
this estimate at its computed liquidity depth. -/
theorem claim_C9_slippage_estimate :
    (∀ liquidityDepthSol : ℚ, estimateSlippageBps 0 liquidityDepthSol = 0) ∧
    (∀ (liq s1 s2 : ℚ), 0 < liq → s1 ≤ s2 →
      estimateSlippageBps s1 liq ≤ estimateSlippageBps s2 liq) ∧
    estimateSlippageBps (1/10) 50 < estimateSlippageBps 5 50 ∧
    (∀ (st : FeatureState) (rpc : RpcState) (mint : String) (orderSizeSol now : ℚ),
      (computeExecutionRiskFeatures st rpc mint orderSizeSol now).estimatedSlippageBps =
        estimateSlippageBps orderSizeSol (liquidityDepth st mint now)) := by
  refine ⟨?_, estimateSlippage_mono, ?_, fun _ _ _ _ _ => rfl⟩
  · intro liq
    norm_num [estimateSlippageBps, jsRound]
  · norm_num [estimateSlippageBps, jsRound]

/-- C9 counterexample to strict monotonicity: sizes 0.001 and 0.002 at
liquidity 50 round to the same 0 basis points. -/
theorem claim_C9_slippage_estimate_counterexample :
    (1/1000 : ℚ) < 2/1000 ∧
    estimateSlippageBps (1/1000) 50 = estimateSlippageBps (2/1000) 50 := by
  constructor
  · norm_num
  · norm_num [estimateSlippageBps, jsRound]

/-- C9 witness: monotonicity applied at sizes 1 and 2 with liquidity 50. -/
theorem claim_C9_slippage_estimate_witness :
    estimateSlippageBps 1 50 ≤ estimateSlippageBps 2 50 :=
  claim_C9_slippage_estimate.2.1 50 1 2 (by norm_num) (by norm_num)

end MEME
